import Mathlib

/-!
Verification of the OpenOCD STM32 command-line driver (`openocd_stm32.py`).

The Python program is shallowly embedded: every method of the `Driver`
class is translated into a pure Lean function.  Interaction with the
outside world is made explicit:

* `which` (the `shutil.which` lookup) and `resolve` (`Path.resolve`) are
  passed in as environment functions;
* the outcome of the single `subprocess.run` call an operation performs is
  passed in as a `ProcResult` (exit code plus captured output streams);
* filesystem and process side effects performed by an operation are
  recorded, in program order, as a list of `Effect`s;
* Python values that may be `None` are modelled as `Option String`, and
  Python truthiness by `truthy`;
* an element of a Python command list is an `Option String`, since the
  program can place `None` (an unset configuration field) in the list.
-/

/-- Truthiness of a Python value that is either a string or `None`:
`None` and the empty string are falsy, every other string is truthy. -/
def truthy : Option String → Bool
  | Option.none => false
  | some s => s != ""

/-- A value stored in an attribute of an `argparse.Namespace`. -/
inductive PyVal where
  | vstr (s : String)
  | vbool (b : Bool)
  | vnone
deriving DecidableEq

/-- Python truthiness of a namespace attribute value. -/
def pyTruthyVal : PyVal → Bool
  | PyVal.vstr s => s != ""
  | PyVal.vbool b => b
  | PyVal.vnone => false

/-- Wrap an optional string as a namespace attribute value. -/
def optAttr : Option String → PyVal
  | Option.none => PyVal.vnone
  | some s => PyVal.vstr s

/-- The string content of a namespace attribute (`str` conversion for the
values the program feeds into f-strings). -/
def asStr : PyVal → String
  | PyVal.vstr s => s
  | PyVal.vbool b => if b then "True" else "False"
  | PyVal.vnone => "None"

/-- An `argparse.Namespace`: a finite collection of named attributes. -/
abbrev PyNamespace := List (String × PyVal)

/-- Attribute access `ns.name`: raises `AttributeError` when the namespace
has no attribute of that name. -/
def getattr (ns : PyNamespace) (name : String) : Except String PyVal :=
  match List.lookup name ns with
  | some v => Except.ok v
  | Option.none => Except.error ("AttributeError: " ++ name)

/-- Split a character list on a separator character (model of splitting a
path string on the path separator). -/
def splitChar (sep : Char) : List Char → List (List Char)
  | [] => [[]]
  | c :: rest =>
    match splitChar sep rest with
    | [] => [[]]
    | g :: gs => if c = sep then [] :: g :: gs else (c :: g) :: gs

/-- `pathlib.Path(p).name`: the final nonempty component of the path. -/
def pathName (p : String) : String :=
  String.mk (((splitChar '/' p.toList).filter (fun g => g ≠ [])).getLastD [])

/-- Index of the last occurrence of a dot in a character list
(`str.rfind` restricted to the dot character). -/
def rfindDot : List Char → Option Nat
  | [] => Option.none
  | c :: rest =>
    match rfindDot rest with
    | some i => some (i + 1)
    | Option.none => if c = '.' then some 0 else Option.none

/-- `pathlib.Path(p).stem`: the final component without its last suffix.
Mirrors the pathlib implementation: drop from the last dot when that dot
is neither the first nor the last character of the name. -/
def pathStem (p : String) : String :=
  let name := pathName p
  let cs := name.toList
  match rfindDot cs with
  | some i => if 0 < i ∧ i < cs.length - 1 then String.mk (cs.take i) else name
  | Option.none => name

/-- `pathlib` path joining `dir / file` for a relative file name. -/
def joinPath (a b : String) : String := a ++ "/" ++ b

/-- One step of `str.format` field substitution.  The first list is the
remaining template characters; the second argument is `some acc` while we
are inside a `\x7b...\x7d` replacement field (with the field characters
accumulated in reverse), `none` otherwise.  A field whose name has no
entry in the property mapping raises `KeyError`, exactly as Python's
`str.format` does. -/
def formatAux (props : List (String × String)) :
    List Char → Option (List Char) → Except String String
  | [], Option.none => Except.ok ""
  | [], some _ => Except.error "ValueError: unterminated replacement field"
  | c :: rest, Option.none =>
    if c = '{' then formatAux props rest (some [])
    else (formatAux props rest Option.none).map (fun t => String.mk [c] ++ t)
  | c :: rest, some acc =>
    if c = '}' then
      let field := acc.reverse
      let name := String.mk (field.takeWhile (fun ch => ch ≠ ':'))
      match List.lookup name props with
      | some v => (formatAux props rest Option.none).map (fun t => v ++ t)
      | Option.none => Except.error ("KeyError: " ++ name)
    else formatAux props rest (some (c :: acc))

/-- `template.format(**props)`: substitute each named replacement field of
the template with its value in the property mapping. -/
def formatTpl (tpl : String) (props : List (String × String)) :
    Except String String :=
  formatAux props tpl.toList Option.none

/-- An observable side effect performed by the program, in program order. -/
inductive Effect where
  | checkBinary (name : String)
  | mkdir (path : String)
  | exec (cmd : List (Option String))
deriving DecidableEq

/-- How a Python method call ends: a normal return value (`None` or an
integer) or an uncaught exception. -/
inductive Outcome where
  | ret (v : Option Int)
  | exn (msg : String)
deriving DecidableEq

/-- The observed result of the one `subprocess.run` call an operation
makes: the tool's exit code and its captured output streams. -/
structure ProcResult where
  returncode : Int
  stdout : String
  stderr : String
deriving DecidableEq

/-- The `Driver` object: the configuration fields set by `__init__`. -/
structure Driver where
  target : Option String
  interface : Option String
  serial : Option String
  config : Option String
  verbose : Bool
  openocd_scripts : Option String
  openocd_binary : String
deriving DecidableEq

/-- The result of running one operation method: how the call ended, the
lines it printed, the side effects it performed (in order), and the state
of the driver object after the call. -/
structure OpResult where
  outcome : Outcome
  output : List String
  effects : List Effect
  driver : Driver
deriving DecidableEq

/-- `openocd_bin or "openocd"`: the binary name the constructor resolves. -/
def resolvedBinary (openocd_bin : Option String) : String :=
  if truthy openocd_bin then openocd_bin.getD "" else "openocd"

/-- `Driver.__init__`: records the configuration fields and checks, once,
that the resolved binary is on the search path (`shutil.which`), raising
`FileNotFoundError` otherwise.  Returns the constructed object or the
error, together with the effects performed. -/
def DriverInit (which : String → Bool)
    (target iface openocd_bin openocd_scripts config serial : Option String)
    (verbose : Bool) : Except String Driver × List Effect :=
  let binary := resolvedBinary openocd_bin
  if which binary then
    (Except.ok { target := target, interface := iface, serial := serial,
                 config := config, verbose := verbose,
                 openocd_scripts := openocd_scripts,
                 openocd_binary := binary },
     [Effect.checkBinary binary])
  else
    (Except.error ("Error: " ++ binary ++ " command not found in the system"),
     [Effect.checkBinary binary])

/-- The error line printed when the subprocess exits non-zero. -/
def errLine (code : Int) : String :=
  "OpenOCD command failed with error " ++ toString code

/-- `Driver.run_command`: run the assembled command, capturing output.
On exit code 0 print the captured streams only in verbose mode and return
0; on a non-zero exit code always print the error line plus the captured
streams and return that exit code.  No exception escapes: the result is
always a numeric status. -/
def runCommand (d : Driver) (command : List (Option String))
    (res : ProcResult) : Int × List String :=
  let pre := if d.verbose then ["Running command " ++ toString command] else []
  if res.returncode = 0 then
    (0, pre ++ (if d.verbose then [res.stdout, res.stderr] else []))
  else
    (res.returncode, pre ++ [errLine res.returncode, res.stdout, res.stderr])

/-- The `-s <scripts>` part of the common invocation prefix. -/
def scriptsFlags (d : Driver) : List (Option String) :=
  if truthy d.openocd_scripts then [some "-s", d.openocd_scripts] else []

/-- The `-f` part of the common invocation prefix: either the combined
config file, or the interface file followed by the target file. -/
def configFlags (d : Driver) : List (Option String) :=
  if truthy d.config then [some "-f", d.config]
  else [some "-f", d.interface, some "-f", d.target]

/-- The serial-selection directive of the common invocation prefix. -/
def serialFlags (d : Driver) : List (Option String) :=
  if truthy d.serial then
    [some "-c", some ("hla_serial " ++ d.serial.getD "")]
  else []

/-- The three fixed initialization directives closing the common prefix. -/
def initFlags : List (Option String) :=
  [some "-c", some "init", some "-c", some "reset", some "-c", some "halt"]

/-- `Driver.__prepare`: the common invocation prefix. -/
def Driver.prepare (d : Driver) : List (Option String) :=
  [some d.openocd_binary] ++ scriptsFlags d ++ configFlags d
    ++ serialFlags d ++ initFlags

/-- `Driver.flash_erase`: mass erase.  The method body calls
`run_command` but has no `return` statement, so the call returns `None`. -/
def Driver.flash_erase (d : Driver) (res : ProcResult) : OpResult :=
  let command := d.prepare
    ++ [some "-c", some "stm32lx mass_erase 0", some "-c", some "shutdown"]
  let r := runCommand d command res
  { outcome := Outcome.ret Option.none, output := r.2,
    effects := [Effect.exec command], driver := d }

/-- `Driver.flash_load`: load an executable into flash.  The write-image
text is appended as a bare token (no preceding `-c`), with the erase
keyword included exactly when `erase` is true; the method returns `None`. -/
def Driver.flash_load (d : Driver) (load_image : String) (erase : Bool)
    (res : ProcResult) : OpResult :=
  let command := d.prepare
    ++ [some ("stm32lx write_image" ++ (if erase then " erase " else " ")
          ++ load_image),
        some "-c", some "reset", some "-c", some "run",
        some "-c", some "shutdown"]
  let r := runCommand d command res
  { outcome := Outcome.ret Option.none, output := r.2,
    effects := [Effect.exec command], driver := d }

/-- The property mapping built by `Driver.read`: the current timestamp,
plus the stems of the target and interface paths and the serial number,
each present only when the corresponding field is truthy. -/
def readProps (d : Driver) (now : String) : List (String × String) :=
  [("datetime", now)]
  ++ (if truthy d.target then [("target", pathStem (d.target.getD ""))] else [])
  ++ (if truthy d.interface then
        [("interface", pathStem (d.interface.getD ""))] else [])
  ++ (if truthy d.serial then [("serial", d.serial.getD "")] else [])

/-- `Driver.read`: dump a memory region into a file whose name comes from
the readout template.  The output directory is resolved and created
(`mkdir(parents=True, exist_ok=True)`) before the template is resolved;
a template field missing from the property mapping raises `KeyError`
before any subprocess is spawned. -/
def Driver.read (d : Driver) (resolve : String → String) (now : String)
    (address size dir readout : String) (res : ProcResult) : OpResult :=
  let props := readProps d now
  let readout_dir := resolve dir
  match formatTpl readout props with
  | Except.error e =>
    { outcome := Outcome.exn e, output := [],
      effects := [Effect.mkdir readout_dir], driver := d }
  | Except.ok name =>
    let readout_file := joinPath readout_dir name
    let command := d.prepare
      ++ [some "-c",
          some ("dump_image " ++ readout_file ++ " " ++ address ++ " " ++ size),
          some "-c", some "shutdown"]
    let r := runCommand d command res
    { outcome := Outcome.ret Option.none, output := r.2,
      effects := [Effect.mkdir readout_dir, Effect.exec command], driver := d }

/-- `Driver.write`: load an image into SRAM; the method returns `None`. -/
def Driver.write (d : Driver) (address : String) (image_path : String)
    (res : ProcResult) : OpResult :=
  let command := d.prepare
    ++ [some "-c", some ("load_image " ++ image_path ++ " " ++ address),
        some "-c", some "shutdown"]
  let r := runCommand d command res
  { outcome := Outcome.ret Option.none, output := r.2,
    effects := [Effect.exec command], driver := d }

/-- `sys.exit(v)`: exiting with `None` yields process exit code 0, exiting
with an integer yields that integer. -/
def sysExit : Option Int → Int
  | Option.none => 0
  | some c => c

/-- The `argparse.Namespace` produced for the `flash` subcommand: the
global options plus the `erase` and `load` attributes.  No attribute named
`load_image` exists. -/
def flashNamespace (verbose : Bool)
    (openocd_scripts openocd_path iface tgt config serial : Option String)
    (erase : Bool) (load : Option String) : PyNamespace :=
  [("verbose", PyVal.vbool verbose),
   ("openocd_scripts", optAttr openocd_scripts),
   ("openocd_path", optAttr openocd_path),
   ("interface", optAttr iface),
   ("target", optAttr tgt),
   ("config", optAttr config),
   ("serial", optAttr serial),
   ("command", PyVal.vstr "flash"),
   ("erase", PyVal.vbool erase),
   ("load", optAttr load)]

/-- The `__main__` dispatch after driver construction: choose the
operation from `args.command`, call it with the attribute values the
source names, and `sys.exit` with the value it returned.  An uncaught
exception (an `AttributeError` from a missing attribute, or a `KeyError`
escaping `read`) is an `Except.error`. -/
def mainDispatch (ns : PyNamespace) (d : Driver) (resolve : String → String)
    (now : String) (res : ProcResult) : Except String Int := do
  let cmd ← getattr ns "command"
  if cmd = PyVal.vstr "read" then
    let address ← getattr ns "address"
    let size ← getattr ns "size"
    let dir ← getattr ns "dir"
    let readout ← getattr ns "readout"
    let r := d.read resolve now (asStr address) (asStr size) (asStr dir)
      (asStr readout) res
    match r.outcome with
    | Outcome.ret v => Except.ok (sysExit v)
    | Outcome.exn e => Except.error e
  else if cmd = PyVal.vstr "flash" then
    let loadv ← getattr ns "load"
    if pyTruthyVal loadv then
      let img ← getattr ns "load_image"
      let er ← getattr ns "erase"
      let r := d.flash_load (asStr img) (pyTruthyVal er) res
      match r.outcome with
      | Outcome.ret v => Except.ok (sysExit v)
      | Outcome.exn e => Except.error e
    else
      let r := d.flash_erase res
      match r.outcome with
      | Outcome.ret v => Except.ok (sysExit v)
      | Outcome.exn e => Except.error e
  else if cmd = PyVal.vstr "write" then
    let address ← getattr ns "address"
    let img ← getattr ns "image"
    let r := d.write (asStr address) (asStr img) res
    match r.outcome with
    | Outcome.ret v => Except.ok (sysExit v)
    | Outcome.exn e => Except.error e
  else
    Except.ok 0

/-- Whether the command list contains `c` as a directive, that is, as the
second element of an adjacent `-c <c>` token pair. -/
def hasDirective (cmd : List (Option String)) (c : String) : Bool :=
  (List.zip cmd cmd.tail).any
    (fun p => p.1 == some "-c" && p.2 == some c)

/-- A successful subprocess result used by concrete instances. -/
def resOk : ProcResult := { returncode := 0, stdout := "", stderr := "" }

/-- A failing subprocess result used by concrete instances. -/
def resFail : ProcResult := { returncode := 1, stdout := "o", stderr := "e" }

/-- A driver configured through a combined config file. -/
def dC3 : Driver :=
  { target := Option.none, interface := Option.none, serial := Option.none,
    config := some "config.cfg", verbose := false,
    openocd_scripts := Option.none, openocd_binary := "openocd" }

/-- The full command list `flash_load` assembles for image `img.elf` with
`erase = true` under the configuration `dC3`. -/
def c3cmdErase : List (Option String) :=
  [some "openocd", some "-f", some "config.cfg", some "-c", some "init",
   some "-c", some "reset", some "-c", some "halt",
   some "stm32lx write_image erase img.elf",
   some "-c", some "reset", some "-c", some "run", some "-c", some "shutdown"]

/-- The same command list with `erase = false`. -/
def c3cmdNoErase : List (Option String) :=
  [some "openocd", some "-f", some "config.cfg", some "-c", some "init",
   some "-c", some "reset", some "-c", some "halt",
   some "stm32lx write_image img.elf",
   some "-c", some "reset", some "-c", some "run", some "-c", some "shutdown"]

/-- C1: the claim says every operation method returns the exit code of the
subprocess it executed and that the CLI exits with that code.  The code
does not: no operation method has a `return` statement, so each returns
`None`, and `sys.exit(None)` makes the CLI exit with 0 — for every driver
and every subprocess result, including failing ones.  The last conjunct
runs the full `flash` (mass erase) dispatch and shows the CLI exit value
is 0 no matter what the tool's exit code was. -/
theorem c1_operation_methods_return_none (d : Driver) (res : ProcResult)
    (img address : String) (er : Bool) :
    (d.flash_erase res).outcome = Outcome.ret Option.none
    ∧ (d.flash_load img er res).outcome = Outcome.ret Option.none
    ∧ (d.write address img res).outcome = Outcome.ret Option.none
    ∧ sysExit Option.none = 0
    ∧ mainDispatch
        (flashNamespace false Option.none Option.none Option.none Option.none
          Option.none Option.none false Option.none)
        d (fun s => s) "TS" res = Except.ok 0 :=
  ⟨rfl, rfl, rfl, rfl, rfl⟩

/-- The namespace argparse produces for
`flash --load image.elf` with a combined config file. -/
def nsC2 : PyNamespace :=
  flashNamespace false Option.none Option.none Option.none Option.none
    (some "config.cfg") Option.none false (some "image.elf")

/-- C2: the claim says `flash --load <path>` invokes the flash-load
operation with that path.  The code instead reads `args.load_image`, an
attribute argparse never defines (the option's destination is `load`), so
for every driver and subprocess result the dispatch dies with an
`AttributeError` and `flash_load` is never reached. -/
theorem c2_flash_load_dispatch_attribute_error (d : Driver)
    (res : ProcResult) :
    mainDispatch nsC2 d (fun s => s) "TS" res
      = Except.error ("AttributeError: " ++ "load_image") :=
  rfl

/-- C3: the claim says flash load appends the write-image directive as a
`-c <command>` token pair.  The code appends the write-image text as a
bare token: in the assembled command the token before it is `halt` (the
tail of the common prefix), not `-c`, so no `-c <write-image>` pair
exists.  The parts of the claim about the erase keyword (present exactly
when `erase` is true) and the trailing reset, run, shutdown directives do
hold, as the two explicit command lists show. -/
theorem c3_flash_load_missing_directive_flag :
    (dC3.flash_load "img.elf" true resOk).effects = [Effect.exec c3cmdErase]
    ∧ (dC3.flash_load "img.elf" false resOk).effects
        = [Effect.exec c3cmdNoErase]
    ∧ hasDirective c3cmdErase "stm32lx write_image erase img.elf" = false
    ∧ hasDirective c3cmdNoErase "stm32lx write_image img.elf" = false
    ∧ c3cmdErase.get? 9 = some (some "stm32lx write_image erase img.elf")
    ∧ c3cmdErase.get? 8 = some (some "halt")
    ∧ hasDirective c3cmdErase "reset" = true
    ∧ hasDirective c3cmdErase "run" = true
    ∧ hasDirective c3cmdErase "shutdown" = true :=
  ⟨rfl, rfl, rfl, rfl, by decide, by decide, rfl, rfl, rfl⟩

/-- C9: no operation method mutates any field of the driver: the driver
state after any of the four operations equals the state before. -/
theorem c9_operations_preserve_fields (d : Driver) (res : ProcResult)
    (resolve : String → String)
    (now address size dir readout img : String) (er : Bool) :
    (d.flash_erase res).driver = d
    ∧ (d.flash_load img er res).driver = d
    ∧ (d.read resolve now address size dir readout res).driver = d
    ∧ (d.write address img res).driver = d := by
  refine ⟨rfl, rfl, ?_, rfl⟩
  cases h : formatTpl readout (readProps d now) <;> simp [Driver.read, h]

/-- C4: when the readout template references a field that is missing from
the resolved property mapping, the read operation ends with the template
error and no subprocess is executed. -/
theorem c4_template_error_before_subprocess (d : Driver)
    (resolve : String → String) (now address size dir readout : String)
    (res : ProcResult) (e : String)
    (h : formatTpl readout (readProps d now) = Except.error e) :
    (d.read resolve now address size dir readout res).outcome = Outcome.exn e
    ∧ ∀ c, Effect.exec c
        ∉ (d.read resolve now address size dir readout res).effects := by
  simp [Driver.read, h]

/-- A driver configured with a target but no interface. -/
def dC4 : Driver :=
  { target := some "board/st_nucleo_l1.cfg", interface := Option.none,
    serial := Option.none, config := Option.none, verbose := false,
    openocd_scripts := Option.none, openocd_binary := "openocd" }

/-- Witness for C4: a readout template referencing `{interface}` while no
interface was configured fails with the `KeyError` and spawns nothing. -/
theorem c4_template_error_witness :
    (dC4.read (fun s => s) "TS" "0x20000000" "0x14000" "readouts"
        "{interface}.bin" resFail).outcome
      = Outcome.exn ("KeyError: " ++ "interface")
    ∧ ∀ c, Effect.exec c
        ∉ (dC4.read (fun s => s) "TS" "0x20000000" "0x14000" "readouts"
            "{interface}.bin" resFail).effects :=
  c4_template_error_before_subprocess dC4 (fun s => s) "TS" "0x20000000"
    "0x14000" "readouts" "{interface}.bin" resFail
    ("KeyError: " ++ "interface") rfl

/-- C10: the output directory is created before the filename template is
resolved, so when the template fails the directory-creation side effect
has already happened: the effect trace of the failed read is exactly the
`mkdir` of the resolved output directory. -/
theorem c10_mkdir_precedes_template (d : Driver) (resolve : String → String)
    (now address size dir readout : String) (res : ProcResult) (e : String)
    (h : formatTpl readout (readProps d now) = Except.error e) :
    (d.read resolve now address size dir readout res).effects
      = [Effect.mkdir (resolve dir)] := by
  simp [Driver.read, h]

/-- A driver with target and interface but no serial. -/
def dC10 : Driver :=
  { target := some "board/b.cfg", interface := some "interface/i.cfg",
    serial := Option.none, config := Option.none, verbose := false,
    openocd_scripts := Option.none, openocd_binary := "openocd" }

/-- Witness for C10: a template referencing the unconfigured `{serial}`
leaves exactly the directory-creation effect behind. -/
theorem c10_mkdir_witness :
    (dC10.read (fun s => s) "TS" "0x20000000" "16" "outdir" "{serial}.bin"
        resOk).effects = [Effect.mkdir "outdir"] :=
  c10_mkdir_precedes_template dC10 (fun s => s) "TS" "0x20000000" "16"
    "outdir" "{serial}.bin" resOk ("KeyError: " ++ "serial") rfl

/-- A truthy string value is truthy as a configuration field. -/
theorem truthy_some_of_ne {s : String} (h : s ≠ "") :
    truthy (some s) = true := by
  simp [truthy, h]

/-- The driver of the spec's readout-template example: target path
`board/x.cfg` and serial `S1`. -/
def dC7 : Driver :=
  { target := some "board/x.cfg", interface := Option.none,
    serial := some "S1", config := Option.none, verbose := false,
    openocd_scripts := Option.none, openocd_binary := "openocd" }

/-- C7: the property mapping used by the memory-read filename template
maps `datetime` to the current timestamp, `target` and `interface` to the
file stem of the configured paths, and `serial` to the configured serial;
in particular the template resolves `\x7btarget\x7d-\x7bserial\x7d.bin`
with target path `board/x.cfg` and serial `S1` to `x-S1.bin`. -/
theorem c7_readout_template_resolution (d : Driver) (now : String) :
    List.lookup "datetime" (readProps d now) = some now
    ∧ (∀ t, d.target = some t → t ≠ "" →
        List.lookup "target" (readProps d now) = some (pathStem t))
    ∧ (∀ i, d.interface = some i → i ≠ "" →
        List.lookup "interface" (readProps d now) = some (pathStem i))
    ∧ (∀ s, d.serial = some s → s ≠ "" →
        List.lookup "serial" (readProps d now) = some s)
    ∧ pathStem "board/x.cfg" = "x"
    ∧ formatTpl "{target}-{serial}.bin" (readProps dC7 now)
        = Except.ok "x-S1.bin" := by
  refine ⟨?_, ?_, ?_, ?_, by decide, rfl⟩
  · simp [readProps, List.lookup]
  · intro t ht hne
    simp [readProps, ht, truthy_some_of_ne hne, List.lookup]
  · intro i hi hne
    cases htg : truthy d.target <;>
      simp [readProps, hi, truthy_some_of_ne hne, htg, List.lookup]
  · intro s hs hne
    cases htg : truthy d.target <;> cases hif : truthy d.interface <;>
      simp [readProps, hs, truthy_some_of_ne hne, htg, hif, List.lookup]

/-- Witness for C7: the mapping of the example driver sends `target` to
the stem `x` of `board/x.cfg` and `serial` to `S1`. -/
theorem c7_readout_template_witness :
    List.lookup "target" (readProps dC7 "TS") = some (pathStem "board/x.cfg")
    ∧ List.lookup "serial" (readProps dC7 "TS") = some "S1" :=
  ⟨(c7_readout_template_resolution dC7 "TS").2.1 "board/x.cfg" rfl (by decide),
   (c7_readout_template_resolution dC7 "TS").2.2.2.1 "S1" rfl (by decide)⟩

/-- C6: the subprocess-execution contract of `run_command`.  On a zero
exit status it returns 0 and prints the captured streams only in verbose
mode; on a non-zero exit status it returns that exit status and always
prints the error line carrying the exit code together with the captured
stdout and stderr, whatever the verbosity.  The function is total: a
failed subprocess yields a numeric status, never an exception. -/
theorem c6_run_command_contract (d : Driver) (command : List (Option String))
    (res : ProcResult) :
    (res.returncode = 0 →
      (runCommand d command res).1 = 0
      ∧ (d.verbose = false → (runCommand d command res).2 = [])
      ∧ (d.verbose = true →
          res.stdout ∈ (runCommand d command res).2
          ∧ res.stderr ∈ (runCommand d command res).2))
    ∧ (res.returncode ≠ 0 →
      (runCommand d command res).1 = res.returncode
      ∧ errLine res.returncode ∈ (runCommand d command res).2
      ∧ res.stdout ∈ (runCommand d command res).2
      ∧ res.stderr ∈ (runCommand d command res).2) := by
  cases hv : d.verbose <;> by_cases hr : res.returncode = 0 <;>
    simp [runCommand, hv, hr]

/-- A non-verbose driver used to exercise `run_command`. -/
def dC6 : Driver :=
  { target := Option.none, interface := Option.none, serial := Option.none,
    config := some "c.cfg", verbose := false,
    openocd_scripts := Option.none, openocd_binary := "openocd" }

/-- Witness for C6: with verbosity off, an exit code 1 is returned and the
error line, stdout and stderr are printed anyway, while a successful run
prints nothing. -/
theorem c6_run_command_witness :
    resFail.returncode ≠ 0
    ∧ (runCommand dC6 [] resFail).1 = resFail.returncode
    ∧ errLine resFail.returncode ∈ (runCommand dC6 [] resFail).2
    ∧ resFail.stdout ∈ (runCommand dC6 [] resFail).2
    ∧ resFail.stderr ∈ (runCommand dC6 [] resFail).2
    ∧ (runCommand dC6 [] resOk).2 = [] := by
  have h := (c6_run_command_contract dC6 [] resFail).2 (by decide)
  have h2 := ((c6_run_command_contract dC6 [] resOk).1 (by decide)).2.1 rfl
  exact ⟨by decide, h.1, h.2.1, h.2.2.1, h.2.2.2, h2⟩

/-- C8: driver construction fails if and only if the resolved binary name
(the configured path, or the default `openocd`) is not found on the search
path; the constructor performs exactly that one check, and no operation
method ever performs a binary check (nor can one run after a failed
construction, which produces no driver). -/
theorem c8_binary_check_at_construction (which : String → Bool)
    (target iface openocd_bin openocd_scripts config serial : Option String)
    (verbose : Bool) :
    ((∃ e, (DriverInit which target iface openocd_bin openocd_scripts config
        serial verbose).1 = Except.error e)
      ↔ which (resolvedBinary openocd_bin) = false)
    ∧ (DriverInit which target iface openocd_bin openocd_scripts config
        serial verbose).2
        = [Effect.checkBinary (resolvedBinary openocd_bin)]
    ∧ (∀ (d : Driver) (res : ProcResult) (resolve : String → String)
        (now address size dir readout img : String) (er : Bool) (b : String),
        Effect.checkBinary b ∉ (d.flash_erase res).effects
        ∧ Effect.checkBinary b ∉ (d.flash_load img er res).effects
        ∧ Effect.checkBinary b
            ∉ (d.read resolve now address size dir readout res).effects
        ∧ Effect.checkBinary b ∉ (d.write address img res).effects) := by
  refine ⟨?_, ?_, ?_⟩
  · cases hw : which (resolvedBinary openocd_bin) <;> simp [DriverInit, hw]
  · cases hw : which (resolvedBinary openocd_bin) <;> simp [DriverInit, hw]
  · intro d res resolve now address size dir readout img er b
    refine ⟨by simp [Driver.flash_erase], by simp [Driver.flash_load], ?_,
      by simp [Driver.write]⟩
    cases h : formatTpl readout (readProps d now) <;> simp [Driver.read, h]

/-- Witness for C8: under a search path that resolves nothing, the
construction fails. -/
theorem c8_binary_check_witness :
    ∃ e, (DriverInit (fun _ => false) Option.none Option.none Option.none
        Option.none Option.none Option.none false).1 = Except.error e :=
  (c8_binary_check_at_construction (fun _ => false) Option.none Option.none
    Option.none Option.none Option.none Option.none false).1.mpr rfl

/-- A serial-selection directive text is never the `-f` flag token. -/
theorem hla_serial_ne_flag (s : String) : ("hla_serial " ++ s) = "-f" → False := by
  intro h
  have h2 := congrArg String.length h
  rw [String.length_append] at h2
  have e1 : ("hla_serial " : String).length = 11 := rfl
  have e2 : ("-f" : String).length = 2 := rfl
  rw [e1, e2] at h2
  omega

/-- The scripts-search-path part contributes no `-f` token, provided the
configured scripts path is not itself the literal `-f`. -/
theorem count_flag_scriptsFlags (d : Driver)
    (h : ∀ s, d.openocd_scripts = some s → s ≠ "-f") :
    (scriptsFlags d).count (some "-f") = 0 := by
  rw [List.count_eq_zero]
  unfold scriptsFlags
  cases hs : d.openocd_scripts with
  | none => simp [truthy]
  | some s =>
    have hne := h s hs
    by_cases he : s = ""
    · simp [truthy, he]
    · simp [truthy_some_of_ne he]
      exact fun hf => hne hf.symm

/-- The serial part contributes no `-f` token. -/
theorem count_flag_serialFlags (d : Driver) :
    (serialFlags d).count (some "-f") = 0 := by
  rw [List.count_eq_zero]
  unfold serialFlags
  split
  · simp
    exact fun hf => hla_serial_ne_flag (d.serial.getD "") hf.symm
  · simp

/-- The binary name contributes no `-f` token when it is not `-f`. -/
theorem count_flag_binary (b : String) (h : b ≠ "-f") :
    ([some b] : List (Option String)).count (some "-f") = 0 := by
  rw [List.count_eq_zero]
  simp
  exact fun hf => h hf.symm

/-- The combined-config part contributes exactly one `-f` token when the
config value is not itself the literal `-f`. -/
theorem count_flag_configPair (c : Option String) (h : c ≠ some "-f") :
    ([some "-f", c] : List (Option String)).count (some "-f") = 1 := by
  simp [List.count_cons, List.count_nil, Ne.symm h]

/-- C5: shape of the assembled common invocation prefix.  Without a
combined config it contains `-f <interface> -f <target>` consecutively
and in that order; with a combined config it contains the single
combined-config `-f` flag and (when no other configured token collides
with the literal `-f`) exactly one `-f` token in total, so never both
flag groups; a configured serial contributes a directive parameterized
with exactly that serial; and the prefix ends with the init, reset, halt
directives. -/
theorem c5_common_invocation_flags (d : Driver) :
    (truthy d.config = false →
      List.IsInfix [some "-f", d.interface, some "-f", d.target] d.prepare)
    ∧ (truthy d.config = true →
      List.IsInfix [some "-f", d.config] d.prepare
      ∧ (d.config ≠ some "-f" → d.openocd_binary ≠ "-f" →
          (∀ s, d.openocd_scripts = some s → s ≠ "-f") →
          d.prepare.count (some "-f") = 1))
    ∧ (∀ s, d.serial = some s → s ≠ "" →
        List.IsInfix [some "-c", some ("hla_serial " ++ s)] d.prepare)
    ∧ List.IsSuffix initFlags d.prepare := by
  refine ⟨?_, ?_, ?_, ?_⟩
  · intro hc
    exact ⟨[some d.openocd_binary] ++ scriptsFlags d,
           serialFlags d ++ initFlags,
           by simp [Driver.prepare, configFlags, hc]⟩
  · intro hc
    have hp : d.prepare = [some d.openocd_binary] ++ scriptsFlags d
        ++ [some "-f", d.config] ++ serialFlags d ++ initFlags := by
      simp [Driver.prepare, configFlags, hc]
    constructor
    · exact ⟨[some d.openocd_binary] ++ scriptsFlags d,
             serialFlags d ++ initFlags,
             by simp [Driver.prepare, configFlags, hc]⟩
    · intro hcv hb hscr
      rw [hp]
      simp only [List.count_append]
      rw [count_flag_binary d.openocd_binary hb,
          count_flag_scriptsFlags d hscr,
          count_flag_configPair d.config hcv,
          count_flag_serialFlags d]
      have hinit : initFlags.count (some "-f") = 0 := by decide
      rw [hinit]
  · intro s hs hne
    have hser : serialFlags d = [some "-c", some ("hla_serial " ++ s)] := by
      unfold serialFlags
      rw [hs]
      simp [truthy_some_of_ne hne]
    exact ⟨[some d.openocd_binary] ++ scriptsFlags d ++ configFlags d,
           initFlags,
           by simp [Driver.prepare, hser]⟩
  · exact ⟨[some d.openocd_binary] ++ scriptsFlags d ++ configFlags d
        ++ serialFlags d, by simp [Driver.prepare]⟩

/-- The driver of the spec's example: interface and target configured, no
combined config, serial `ABC123`. -/
def dC5 : Driver :=
  { target := some "board/st_nucleo_l1.cfg",
    interface := some "interface/stlink.cfg", serial := some "ABC123",
    config := Option.none, verbose := false,
    openocd_scripts := Option.none, openocd_binary := "openocd" }

/-- A driver configured through a combined config file only. -/
def dC5b : Driver :=
  { target := Option.none, interface := Option.none, serial := Option.none,
    config := some "combined.cfg", verbose := false,
    openocd_scripts := Option.none, openocd_binary := "openocd" }

/-- Witness for C5: the example drivers exhibit the interface/target pair,
the serial directive with exactly `ABC123`, and a single `-f` token in the
combined-config case. -/
theorem c5_common_invocation_witness :
    List.IsInfix [some "-f", dC5.interface, some "-f", dC5.target] dC5.prepare
    ∧ List.IsInfix [some "-c", some ("hla_serial " ++ "ABC123")] dC5.prepare
    ∧ dC5b.prepare.count (some "-f") = 1 := by
  refine ⟨(c5_common_invocation_flags dC5).1 (by decide),
          (c5_common_invocation_flags dC5).2.2.1 "ABC123" rfl (by decide),
          ?_⟩
  exact ((c5_common_invocation_flags dC5b).2.1 (by decide)).2
    (by decide) (by decide) (fun s h => absurd h (by simp [dC5b]))
